import Mathlib

/-!
Verification development for `create_repl.py` (repl_creator).

The Python source is shallowly embedded below.  JSON documents become the
`Json` inductive; Python exceptions become the `PyError` inductive (one
constructor per exception class the source raises or catches); the file
system becomes an association list from path to file data, with file I/O
primitives treated as a black box except for the facts the source itself
relies on (`open(p, 'w')` truncates before writing, and `open('', 'w')`
raises `FileNotFoundError`, while `os.path.exists('')` is `False`).
Network transport is an oracle `TransportOutcome` consumed by
`ReplitAPI._graphql_request`; fallible Python code becomes `Except`.
-/

namespace ReplCreator

/-- JSON values as produced by Python's `json.load` / consumed by
`json.dump`.  Objects keep insertion order, as Python dicts do. -/
inductive Json where
  | null
  | bool (b : Bool)
  | num (n : Int)
  | str (s : String)
  | arr (xs : List Json)
  | obj (fields : List (String × Json))

mutual

/-- Decidable equality on JSON values (hand-rolled: the nested list
occurrences block the automatic derivation). -/
def Json.decEq : (a b : Json) → Decidable (a = b)
  | .null, .null => isTrue rfl
  | .bool a, .bool b =>
    if h : a = b then isTrue (h ▸ rfl)
    else isFalse (fun he => h (Json.bool.inj he))
  | .num a, .num b =>
    if h : a = b then isTrue (h ▸ rfl)
    else isFalse (fun he => h (Json.num.inj he))
  | .str a, .str b =>
    if h : a = b then isTrue (h ▸ rfl)
    else isFalse (fun he => h (Json.str.inj he))
  | .arr a, .arr b =>
    match Json.decEqArr a b with
    | isTrue h => isTrue (h ▸ rfl)
    | isFalse h => isFalse (fun he => h (Json.arr.inj he))
  | .obj a, .obj b =>
    match Json.decEqObj a b with
    | isTrue h => isTrue (h ▸ rfl)
    | isFalse h => isFalse (fun he => h (Json.obj.inj he))
  | .null, .bool _ => isFalse (fun h => Json.noConfusion h)
  | .null, .num _ => isFalse (fun h => Json.noConfusion h)
  | .null, .str _ => isFalse (fun h => Json.noConfusion h)
  | .null, .arr _ => isFalse (fun h => Json.noConfusion h)
  | .null, .obj _ => isFalse (fun h => Json.noConfusion h)
  | .bool _, .null => isFalse (fun h => Json.noConfusion h)
  | .bool _, .num _ => isFalse (fun h => Json.noConfusion h)
  | .bool _, .str _ => isFalse (fun h => Json.noConfusion h)
  | .bool _, .arr _ => isFalse (fun h => Json.noConfusion h)
  | .bool _, .obj _ => isFalse (fun h => Json.noConfusion h)
  | .num _, .null => isFalse (fun h => Json.noConfusion h)
  | .num _, .bool _ => isFalse (fun h => Json.noConfusion h)
  | .num _, .str _ => isFalse (fun h => Json.noConfusion h)
  | .num _, .arr _ => isFalse (fun h => Json.noConfusion h)
  | .num _, .obj _ => isFalse (fun h => Json.noConfusion h)
  | .str _, .null => isFalse (fun h => Json.noConfusion h)
  | .str _, .bool _ => isFalse (fun h => Json.noConfusion h)
  | .str _, .num _ => isFalse (fun h => Json.noConfusion h)
  | .str _, .arr _ => isFalse (fun h => Json.noConfusion h)
  | .str _, .obj _ => isFalse (fun h => Json.noConfusion h)
  | .arr _, .null => isFalse (fun h => Json.noConfusion h)
  | .arr _, .bool _ => isFalse (fun h => Json.noConfusion h)
  | .arr _, .num _ => isFalse (fun h => Json.noConfusion h)
  | .arr _, .str _ => isFalse (fun h => Json.noConfusion h)
  | .arr _, .obj _ => isFalse (fun h => Json.noConfusion h)
  | .obj _, .null => isFalse (fun h => Json.noConfusion h)
  | .obj _, .bool _ => isFalse (fun h => Json.noConfusion h)
  | .obj _, .num _ => isFalse (fun h => Json.noConfusion h)
  | .obj _, .str _ => isFalse (fun h => Json.noConfusion h)
  | .obj _, .arr _ => isFalse (fun h => Json.noConfusion h)

/-- Decidable equality on JSON arrays. -/
def Json.decEqArr : (a b : List Json) → Decidable (a = b)
  | [], [] => isTrue rfl
  | [], _ :: _ => isFalse (fun h => List.noConfusion h)
  | _ :: _, [] => isFalse (fun h => List.noConfusion h)
  | x :: xs, y :: ys =>
    match Json.decEq x y, Json.decEqArr xs ys with
    | isTrue h1, isTrue h2 => isTrue (by rw [h1, h2])
    | isFalse h1, _ => isFalse (fun he => h1 (by injection he))
    | _, isFalse h2 => isFalse (fun he => h2 (by injection he))

/-- Decidable equality on JSON object field lists. -/
def Json.decEqObj : (a b : List (String × Json)) → Decidable (a = b)
  | [], [] => isTrue rfl
  | [], _ :: _ => isFalse (fun h => List.noConfusion h)
  | _ :: _, [] => isFalse (fun h => List.noConfusion h)
  | (k, v) :: xs, (k', v') :: ys =>
    if h1 : k = k' then
      match Json.decEq v v', Json.decEqObj xs ys with
      | isTrue h2, isTrue h3 => isTrue (by rw [h1, h2, h3])
      | isFalse h2, _ =>
        isFalse (fun he => h2 (congrArg (fun l => (l.headD (k, v)).2) he))
      | _, isFalse h3 => isFalse (fun he => h3 (by injection he))
    else isFalse (fun he => h1 (congrArg (fun l => (l.headD (k, v)).1) he))

end

instance : DecidableEq Json := Json.decEq

instance : BEq Json := ⟨fun a b => decide (a = b)⟩

/-- Python exception values, one constructor per class the source raises
or catches.  `configError` is the source's `ConfigurationError(message,
path)` dataclass. -/
inductive PyError where
  | valueError (msg : String)
  | configError (msg : String) (path : Option String)
  | fileNotFound (path : String)
  | typeError (msg : String)
  | keyError (key : String)
  | attributeError (msg : String)
  | reqConnectionError
  | reqTimeout
  | reqOther (msg : String)
  | exception (msg : String)
deriving DecidableEq, Repr

/-- The Python class name of an exception value (what `type(e).__name__`
reports, qualified for the `requests` classes). -/
def PyError.pyClass : PyError → String
  | .valueError _ => "ValueError"
  | .configError _ _ => "ConfigurationError"
  | .fileNotFound _ => "FileNotFoundError"
  | .typeError _ => "TypeError"
  | .keyError _ => "KeyError"
  | .attributeError _ => "AttributeError"
  | .reqConnectionError => "requests.exceptions.ConnectionError"
  | .reqTimeout => "requests.exceptions.Timeout"
  | .reqOther _ => "requests.exceptions.RequestException"
  | .exception _ => "Exception"

/-- Whether the exception is an instance of
`requests.exceptions.RequestException` — the class the retry loop in
`ReplCreator.create_repl` (line 488) catches and retries on.
`ConnectionError` and `Timeout` are its subclasses; `ValueError` is not. -/
def PyError.isRequestException : PyError → Bool
  | .reqConnectionError => true
  | .reqTimeout => true
  | .reqOther _ => true
  | _ => false

/-- Python `str(e)` for the exception values the claims observe.  For
`FileNotFoundError` this is the `[Errno 2]` message `open` produces; for
`KeyError` the quoted key. -/
def PyError.toStr : PyError → String
  | .valueError m => m
  | .configError m _ => m
  | .fileNotFound p => "[Errno 2] No such file or directory: " ++ "'" ++ p ++ "'"
  | .typeError m => m
  | .keyError k => "'" ++ k ++ "'"
  | .attributeError m => m
  | .reqConnectionError => "connection error"
  | .reqTimeout => "timeout"
  | .reqOther m => m
  | .exception m => m

/-- Python truthiness of a JSON value (`if x:`): `None`, `False`, `0`,
`""`, `[]` and `{}` are falsy. -/
def pyTruthy : Json → Bool
  | .null => false
  | .bool b => b
  | .num n => n != 0
  | .str s => s != ""
  | .arr xs => !xs.isEmpty
  | .obj fields => !fields.isEmpty

/-- Whether `m` is a prefix of some suffix of the list — substring
containment on character lists (kernel-reducible, unlike
`String.splitOn`). -/
def substrInAux (m : List Char) : List Char → Bool
  | [] => m.isPrefixOf []
  | c :: rest => m.isPrefixOf (c :: rest) || substrInAux m rest

/-- Substring containment, modelling Python's `needle in haystack` on
strings. -/
def substrIn (needle haystack : String) : Bool :=
  substrInAux needle.data haystack.data

/-- Python `s.endswith(suffix)` (ASCII; kernel-reducible list
implementation). -/
def strEndsWith (s suffix : String) : Bool :=
  suffix.data.isSuffixOf s.data

/-- Python `s.lower()` (ASCII; kernel-reducible list implementation). -/
def pyLower (s : String) : String :=
  String.mk (s.data.map Char.toLower)

/-- Python's `field in container` (`__contains__`): key membership for
dicts, element membership for lists, substring test for strings, and
`TypeError` otherwise. -/
def pyContains (container : Json) (field : String) : Except PyError Bool :=
  match container with
  | .obj fields => .ok (fields.any (fun kv => kv.1 == field))
  | .arr xs => .ok (xs.any (fun x => x == .str field))
  | .str s => .ok (substrIn field s)
  | _ => .error (.typeError "argument of type is not iterable")

/-- Python's `container[field]` subscript with a string key: dict lookup
(`KeyError` when absent), `TypeError` for lists and everything else. -/
def pySubscript (container : Json) (field : String) : Except PyError Json :=
  match container with
  | .obj fields =>
    match fields.lookup field with
    | some v => .ok v
    | none => .error (.keyError field)
  | .arr _ => .error (.typeError "list indices must be integers or slices, not str")
  | _ => .error (.typeError "object is not subscriptable")

/-- Python's `d.get(key, default)` where `d` came off the wire and may
not be a dict (`AttributeError` then, as in CPython). -/
def pyGet (container : Json) (field : String) (dflt : Json) : Except PyError Json :=
  match container with
  | .obj fields => .ok ((fields.lookup field).getD dflt)
  | _ => .error (.attributeError "object has no attribute get")

/-- Python's `d.get(key)` / `d.get(key, default)` on a value statically
known to be a dict (the loaded configuration); returns the default for a
missing key. -/
def dictGet (container : Json) (field : String) (dflt : Json) : Json :=
  match container with
  | .obj fields => (fields.lookup field).getD dflt
  | _ => dflt

/-- Iteration `for x in j` over a JSON value: list elements, dict keys,
string characters; `TypeError` otherwise. -/
def pyIter : Json → Except PyError (List Json)
  | .arr xs => .ok xs
  | .obj fields => .ok (fields.map (fun kv => .str kv.1))
  | .str s => .ok (s.data.map (fun c => .str (String.mk [c])))
  | _ => .error (.typeError "object is not iterable")

/-- Python `str(x)` as used in f-string interpolation of message values;
only the string case is exercised by the source's realistic inputs. -/
def pyStrJson : Json → String
  | .str s => s
  | .bool true => "True"
  | .bool false => "False"
  | .null => "None"
  | .num n => toString n
  | .arr _ => "<list>"
  | .obj _ => "<dict>"

/-- Update key `k` in an ordered association list the way Python dict
assignment does: an existing key keeps its position, a new key is
appended at the end. -/
def setAssoc : List (String × Json) → String → Json → List (String × Json)
  | [], k, v => [(k, v)]
  | (k', v') :: rest, k, v =>
    if k' == k then (k, v) :: rest else (k', v') :: setAssoc rest k v

/-- `j[k] = v` on a JSON object (dict item assignment). -/
def Json.setField : Json → String → Json → Json
  | .obj fields, k, v => .obj (setAssoc fields k v)
  | j, _, _ => j

/-! ## File system model

Files hold either a JSON document (written by `json.dump`, read by
`json.load`) or plain text (entry-point stubs).  The store is an
association list consed on write, so lookup sees the newest write:
last-write-wins, exactly the Python behavior for `open(p, 'w')`. -/

/-- Contents of one file: a decodable JSON document or raw text (raw
text makes `json.load` raise `JSONDecodeError`). -/
inductive FileData where
  | jsonF (j : Json)
  | textF (s : String)
deriving DecidableEq

/-- The file system: paths mapped to file contents. -/
def FS := List (String × FileData)

instance : DecidableEq FS := inferInstanceAs (DecidableEq (List (String × FileData)))

/-- Look up a path (first, i.e. most recent, match). -/
def FS.lookup (fs : FS) (p : String) : Option FileData :=
  List.lookup p fs

/-- Overwrite the file at `p` (models a completed `open(p, 'w')` +
write). -/
def FS.write (fs : FS) (p : String) (d : FileData) : FS :=
  (p, d) :: fs

/-- `os.path.exists(p)`: the empty path never exists. -/
def FS.exists (fs : FS) (p : String) : Bool :=
  p != "" && (fs.lookup p).isSome

/-- A completed `open(p, 'w')` followed by a full write.  CPython's
`open('', 'w')` raises `FileNotFoundError` (errno 2); any other path is
writable in this model (permission and disk failures are outside it). -/
def fsOpenWrite (fs : FS) (p : String) (d : FileData) : Except PyError FS :=
  if p == "" then .error (.fileNotFound p) else .ok (fs.write p d)

/-! ## ConfigValidator and ReplConfig (lines 19-79) -/

/-- The `required_fields` list of `ConfigValidator.validate_config`. -/
def requiredFields : List String :=
  ["default_language", "templates", "default_privacy"]

/-- The `for field in required_fields` loop of `validate_config`:
raise `ConfigurationError("Missing required field: ...")` at the first
absent field. -/
def checkRequired (config : Json) : List String → Except PyError Unit
  | [] => .ok ()
  | f :: rest => do
    let present ← pyContains config f
    if present then checkRequired config rest
    else .error (.configError ("Missing required field: " ++ f) none)

/-- `isinstance(x, str)`. -/
def Json.isStr : Json → Bool
  | .str _ => true
  | _ => false

/-- `isinstance(x, dict)`. -/
def Json.isDict : Json → Bool
  | .obj _ => true
  | _ => false

/-- `isinstance(x, bool)`. -/
def Json.isBool : Json → Bool
  | .bool _ => true
  | _ => false

/-- `ConfigValidator.validate_config` (lines 22-38). -/
def validate_config (config : Json) : Except PyError Unit := do
  checkRequired config requiredFields
  let dl ← pySubscript config "default_language"
  if !dl.isStr then
    .error (.configError "default_language must be a string" none)
  else do
    let t ← pySubscript config "templates"
    if !t.isDict then
      .error (.configError "templates must be a dictionary" none)
    else do
      let p ← pySubscript config "default_privacy"
      if !p.isBool then
        .error (.configError "default_privacy must be a boolean" none)
      else .ok ()

/-- `ReplConfig.get_default_config` (lines 68-79); `now` stands for
`datetime.now().isoformat()`. -/
def get_default_config (now : String) : Json :=
  .obj [("default_language", .str "python"),
        ("templates", .obj []),
        ("team_id", .null),
        ("default_privacy", .bool false),
        ("create_remote", .bool false),
        ("config_version", .str "1.0.0"),
        ("last_updated", .str now)]

/-- `ReplConfig.load` (lines 47-57): if the path exists, decode
(raw text means `json.JSONDecodeError`, re-raised as
`ConfigurationError`), validate, and return; otherwise synthesize the
default configuration without writing it. -/
def ReplConfig.load (fs : FS) (path : String) (now : String) : Except PyError Json :=
  match fs.lookup path with
  | some (.jsonF j) => do
    validate_config j
    .ok j
  | some (.textF s) =>
    .error (.configError ("Invalid JSON in config file: " ++ s) (some path))
  | none => .ok (get_default_config now)

/-- `ReplConfig.save` (lines 59-66): validate, then overwrite the
document; any failure is wrapped in `ConfigurationError("Failed to save
config: ...")`. -/
def ReplConfig.save (fs : FS) (path : String) (config : Json) : Except PyError FS :=
  match validate_config config with
  | .ok _ => .ok (fs.write path (.jsonF config))
  | .error e => .error (.configError ("Failed to save config: " ++ e.toStr) (some path))

/-! ## ReplitAPI (lines 81-253)

One `requests.post` to the GraphQL endpoint is abstracted as a
`TransportOutcome`: a transport-level exception, or an HTTP response
(status, decoded body or decode failure, raw text).  `attempts`-indexed
oracles `Nat → TransportOutcome` describe what the network does on each
successive request. -/

/-- What one `requests.post` call does. -/
inductive TransportOutcome where
  | connectionError
  | timeout
  | otherRequestError (msg : String)
  | response (status : Nat) (body : Option Json) (text : String)
deriving DecidableEq

/-- The token-missing message of `ReplitAPI.create_remote_repl`
(line 198). -/
def remoteDisabledMsg : String :=
  "Remote Repl creation is temporarily unavailable while we update our API integration."

/-- The `ConnectionError` classification message of `_graphql_request`
(lines 243-246). -/
def unreachableMsg : String :=
  "Failed to connect to Replit API. Please check your internet connection and ensure api.replit.com is accessible."

/-- The `Timeout` classification message of `_graphql_request`
(lines 247-251). -/
def timeoutMsg : String :=
  "Request to Replit API timed out. Please try again later or check your network connection."

/-- The HTTP 401 classification message of `_handle_api_response`
(lines 135-139). -/
def authFailedMsg : String :=
  "Authentication failed. Please ensure you're using a valid token. Note: Replit's authentication system is being updated."

/-- The HTTP 403 classification message (lines 140-144). -/
def forbiddenMsg : String :=
  "Access forbidden. Please check your token permissions. You might need to request additional access rights."

/-- The HTTP 429 classification message (lines 145-149). -/
def rateLimitedMsg : String :=
  "Rate limit exceeded. Please wait before making more requests. Consider implementing rate limiting in your application."

/-- `ReplitAPI` carries the resolved token (`token or
os.environ.get('REPLIT_TOKEN')`, line 88). -/
structure ReplitAPI where
  token : Option String
deriving DecidableEq

/-- `ReplitAPI.is_remote_enabled` (lines 89, 116-119):
`bool(self.token)` — `None` and the empty string are falsy. -/
def ReplitAPI.is_remote_enabled (api : ReplitAPI) : Bool :=
  match api.token with
  | some t => t != ""
  | none => false

/-- The list comprehension of `_handle_api_response` (lines 130-131):
`error.get('message', 'Unknown error')` for each element of the
`errors` value. -/
def errorMessages : List Json → Except PyError (List Json)
  | [] => .ok []
  | e :: rest =>
    match pyGet e "message" (.str "Unknown error") with
    | .error err => .error err
    | .ok m =>
      match errorMessages rest with
      | .error err => .error err
      | .ok ms => .ok (m :: ms)

/-- `ReplitAPI._handle_api_response` (lines 121-159).  Its `try` block
catches only `requests.exceptions.JSONDecodeError` (the `body = none`
case); every classification is raised as a plain `ValueError`. -/
def handle_api_response (status : Nat) (body : Option Json) (text : String) :
    Except PyError Json :=
  if status == 200 then
    match body with
    | none =>
      .error (.valueError ("Invalid JSON response from API. Status: " ++ toString status ++
        ", Content: " ++ String.mk (text.data.take 200) ++ "..."))
    | some j =>
      if j == .null then .error (.valueError "API returned null response")
      else
        match pyContains j "errors" with
        | .error e => .error e
        | .ok true =>
          match pySubscript j "errors" with
          | .error e => .error e
          | .ok errsVal =>
            match pyIter errsVal with
            | .error e => .error e
            | .ok errs =>
              match errorMessages errs with
              | .error e => .error e
              | .ok msgs =>
                .error (.valueError ("API errors: " ++
                  String.intercalate "; " (msgs.map pyStrJson)))
        | .ok false => .ok j
  else if status == 401 then .error (.valueError authFailedMsg)
  else if status == 403 then .error (.valueError forbiddenMsg)
  else if status == 429 then .error (.valueError rateLimitedMsg)
  else
    .error (.valueError ("API request failed with status " ++ toString status ++
      ". Response: " ++ text))

/-- `ReplitAPI._graphql_request` (lines 228-253).  Note that the three
`except` clauses re-raise every `requests` exception — connection
failures, timeouts and everything else — as a plain `ValueError`; no
`RequestException` ever escapes this function. -/
def graphql_request (t : TransportOutcome) : Except PyError Json :=
  match t with
  | .connectionError => .error (.valueError unreachableMsg)
  | .timeout => .error (.valueError timeoutMsg)
  | .otherRequestError m => .error (.valueError ("API request failed: " ++ m))
  | .response status body text => handle_api_response status body text

/-- `ReplitAPI.create_remote_repl` (lines 189-226), returning the result
together with the number of network requests issued.  The disabled-mode
check precedes any network activity; `title`, `language`, `is_private`
and `template_id` only populate the mutation variables, which the
transport oracle abstracts. -/
def ReplitAPI.create_remote_repl (api : ReplitAPI) (t : TransportOutcome)
    (_title _language : String) (_is_private : Bool) (_template_id : Option String) :
    Except PyError Json × Nat :=
  if !api.is_remote_enabled then
    (.error (.valueError remoteDisabledMsg), 0)
  else
    let res : Except PyError Json :=
      match graphql_request t with
      | .error e => .error e
      | .ok resp =>
        match (if pyTruthy resp then pyContains resp "data" else .ok false) with
        | .error e => .error e
        | .ok true =>
          match pySubscript resp "data" with
          | .error e => .error e
          | .ok d =>
            match pyGet d "createRepl" (.obj []) with
            | .error e => .error e
            | .ok cr =>
              match pyGet cr "repl" (.obj []) with
              | .error e => .error e
              | .ok repl => .ok repl
        | .ok false => .error (.exception "Failed to create remote Repl")
    (res, 1)

/-- `ReplitAPI.get_templates` (lines 161-187), with the number of
network requests issued.  Disabled mode returns `[]` without touching
the network; a missing or falsy `data` member also yields `[]`. -/
def ReplitAPI.get_templates (api : ReplitAPI) (t : TransportOutcome) :
    Except PyError Json × Nat :=
  if !api.is_remote_enabled then
    (.ok (.arr []), 0)
  else
    let res : Except PyError Json := do
      let resp ← graphql_request t
      let hasData ← if pyTruthy resp then pyContains resp "data" else pure false
      if hasData then do
        let d ← pySubscript resp "data"
        let ts ← pyGet d "templateSearch" (.obj [])
        pyGet ts "items" (.arr [])
      else .ok (.arr [])
    (res, 1)

/-! ## ReplCreator orchestrator (lines 387-532) -/

/-- The derived file name stem: `title.lower().replace(' ', '_')`
(line 454). -/
def slug (title : String) : String :=
  String.mk ((pyLower title).data.map (fun c => if c = ' ' then '_' else c))

/-- The language-specific entry-point file name (lines 446-451):
unrecognized languages keep the initial `""`. -/
def entryFor (language : String) : String :=
  if language == "python" then "main.py"
  else if language == "nodejs" then "index.js"
  else ""

/-- Python `x or y` where `x` is an `Optional[str]` and `y` a JSON
value: `None` and `""` are falsy (line 441, `team_id or
self.config.get("team_id")`). -/
def pyOrStr (a : Option String) (b : Json) : Json :=
  match a with
  | some s => if s == "" then b else .str s
  | none => b

/-- An `Optional[str]` as the JSON value `json.dump` writes for it. -/
def optStr : Option String → Json
  | some s => .str s
  | none => .null

/-- The local configuration dict literal of `create_repl`
(lines 431-443), before the language-specific updates. -/
def baseRecord (cfg : Json) (language : String)
    (template_file team_id : Option String) (is_private : Bool) : Json :=
  .obj [("run", .str ""),
        ("language", .str language),
        ("entrypoint", .str ""),
        ("onBoot", .str ""),
        ("packager", .obj [("language", .str language),
                           ("ignoredPaths", .arr [.str ".git"])]),
        ("template", optStr template_file),
        ("team_id", pyOrStr team_id (dictGet cfg "team_id" .null)),
        ("is_private", .bool is_private)]

/-- The language-specific mutations of `create_repl` (lines 445-451):
`run` and `entrypoint` are overwritten for `python` and `nodejs` and
left blank otherwise. -/
def withLangDefaults (language : String) (record : Json) : Json :=
  if language == "python" then
    (record.setField "run" (.str "python main.py")).setField "entrypoint" (.str "main.py")
  else if language == "nodejs" then
    (record.setField "run" (.str "node index.js")).setField "entrypoint" (.str "index.js")
  else record

/-- The stub text `_create_entry_point` writes (lines 529-532): one line
for `.py`, one line for `.js`, an empty file otherwise. -/
def stubContent (entrypoint : String) : String :=
  if strEndsWith entrypoint ".py" then "print(\"Hello from your new Repl!\")\n"
  else if strEndsWith entrypoint ".js" then "console.log(\"Hello from your new Repl!\");\n"
  else ""

/-- `ReplCreator._create_entry_point` (lines 525-532): write the stub
only when `os.path.exists(entrypoint)` is false.  `open('', 'w')` (the
blank-entrypoint case of an unrecognized language) raises
`FileNotFoundError`, which nothing here catches. -/
def create_entry_point (fs : FS) (entrypoint : String) : Except PyError FS :=
  if fs.exists entrypoint then .ok fs
  else fsOpenWrite fs entrypoint (.textF (stubContent entrypoint))

/-- The generated block for a "Flask application" directive
(lines 545-553). -/
def blockFlask : List String :=
  ["from flask import Flask", "app = Flask(__name__)", "",
   "@app.route('/')", "def hello_world():", "    return 'Hello World'", ""]

/-- The generated block for a "current time" directive (lines 555-562). -/
def blockTime : List String :=
  ["from datetime import datetime", "", "@app.route('/time')", "def get_time():",
   "    return \x7b'time': datetime.now().strftime('%Y-%m-%d %H:%M:%S')\x7d", ""]

/-- The generated block for an "error handling" directive
(lines 564-572). -/
def blockErr : List String :=
  ["@app.errorhandler(404)", "def not_found(error):",
   "    return \x7b'error': 'Not found'\x7d, 404", "",
   "if __name__ == '__main__':",
   "    app.run(host='0.0.0.0', port=5000, debug=True)", ""]

/-- Python `x.lower()` on a JSON value: only strings have `.lower`
(`AttributeError` otherwise). -/
def pyLowerStr (j : Json) : Except PyError String :=
  match j with
  | .str s => .ok (pyLower s)
  | _ => .error (.attributeError "object has no attribute lower")

/-- One iteration of the directive loop of `_create_from_template`
(lines 542-572): the lines this `cmd` contributes to `content`. -/
def cmdLines (cmd : Json) : Except PyError (List String) := do
  let ctx ← pySubscript cmd "context"
  let ctxLower ← pyLowerStr ctx
  if ctxLower == "python" || substrIn "flask" ctxLower then do
    let c ← pySubscript cmd "command"
    let hasFlaskApp ← pyContains c "Flask application"
    if hasFlaskApp then .ok blockFlask
    else do
      let cLower ← pyLowerStr c
      if substrIn "current time" cLower then .ok blockTime
      else if substrIn "error handling" cLower then .ok blockErr
      else .ok []
  else .ok []

/-- The whole `content` list accumulated by the directive loop. -/
def buildTemplateContent (cmds : List Json) : Except PyError (List String) := do
  let blocks ← cmds.mapM cmdLines
  .ok blocks.flatten

/-- `ReplCreator._create_from_template` (lines 534-579): any failure in
the `try` block (unreadable or undecodable template, malformed
directive, write failure) falls back to `_create_entry_point`.  The
write happens only for a `.py` entry point, with `'\n'.join(content)`
(no trailing newline). -/
def create_from_template (fs : FS) (entrypoint : String) (template_file : String) :
    Except PyError FS :=
  let decoded : Except PyError Json := match fs.lookup template_file with
    | some (.jsonF j) => .ok j
    | some (.textF s) => .error (.valueError ("Expecting value: " ++ s))
    | none => .error (.fileNotFound template_file)
  let attempt : Except PyError FS := match decoded with
    | .error e => .error e
    | .ok commands =>
      if strEndsWith entrypoint ".py" then
        match pyIter commands with
        | .error e => .error e
        | .ok cmds =>
          match buildTemplateContent cmds with
          | .error e => .error e
          | .ok content =>
            fsOpenWrite fs entrypoint (.textF (String.intercalate "\n" content))
      else .ok fs
  match attempt with
  | .ok fs' => .ok fs'
  | .error _ => create_entry_point fs entrypoint

/-- The first warning line `create_repl` prints when remote creation is
requested while the client is disabled (line 422). -/
def advisoryMsg : String :=
  "Warning: Remote creation requested but API token not available."

instance {ε α : Type} [DecidableEq ε] [DecidableEq α] : DecidableEq (Except ε α) := fun a b =>
  match a, b with
  | .ok x, .ok y =>
    if h : x = y then isTrue (h ▸ rfl) else isFalse (fun he => h (Except.ok.inj he))
  | .error x, .error y =>
    if h : x = y then isTrue (h ▸ rfl) else isFalse (fun he => h (Except.error.inj he))
  | .ok _, .error _ => isFalse (fun h => Except.noConfusion h)
  | .error _, .ok _ => isFalse (fun h => Except.noConfusion h)

/-- The observable outcome of one `ReplCreator.create_repl` call:
its return value or exception, the file system afterwards (partial
effects survive an exception, as in Python), the advisory warnings
printed, the number of `create_remote_repl` attempts made, and — for
specification purposes — the final in-memory config dict and the local
record path the call used. -/
structure CallResult where
  ret : Except PyError Json
  fs : FS
  warnings : List String
  attempts : Nat
  record : Json
  config_file : String
deriving DecidableEq

/-- The retry loop of `create_repl` (lines 472-499) with `max_retries =
3`: `remaining` is `max_retries - retry_count`, `attempts` counts
`create_remote_repl` calls and indexes the transport oracle.  On
success, `config["remote"]` is set and the record file rewritten; the
loop then breaks (the success branch's later `remote_config['url']`
lookup can only raise after both updates, and `except Exception` then
also just breaks, so the resulting state is the same).  A caught
`requests.exceptions.RequestException` increments `retry_count` and
retries; any other exception prints a warning and breaks. -/
def retryLoopAux (api : ReplitAPI) (transports : Nat → TransportOutcome)
    (title language : String) (is_private : Bool) (config_file : String) :
    Nat → Json → FS → Nat → Json × FS × Nat
  | 0, record, fs, attempts => (record, fs, attempts)
  | remaining + 1, record, fs, attempts =>
    match (api.create_remote_repl (transports attempts) title language is_private none).1 with
    | .ok remote =>
      let record' := record.setField "remote" remote
      (record', fs.write config_file (.jsonF record'), attempts + 1)
    | .error e =>
      if e.isRequestException then
        retryLoopAux api transports title language is_private config_file
          remaining record fs (attempts + 1)
      else (record, fs, attempts + 1)

/-- The tail of `ReplCreator.create_repl` after the record persist
(lines 463-501): entry-point creation, the line-470 fallback, and the
bounded retry.  `cr2` is the remote-flag variable as of line 463,
`record` the in-memory config dict, `fs1` the file system after the
record persist, `entryStep` the outcome of the entry-point step. -/
def createReplFinish (cfg : Json) (api : ReplitAPI) (transports : Nat → TransportOutcome)
    (title language : String) (is_private : Bool) (cr2 : Json) (warnings : List String)
    (record : Json) (config_file : String) (entryStep : Except PyError FS)
    (fs1 : FS) : CallResult :=
  match entryStep with
  | .error e =>
    { ret := .error e, fs := fs1, warnings := warnings, attempts := 0,
      record := record, config_file := config_file }
  | .ok fs2 =>
    -- line 470: the `is not None` fallback to the configuration default
    -- (cr2 can no longer be None here)
    let cr3 : Json := if cr2 == .null then dictGet cfg "create_remote" (.bool false) else cr2
    -- lines 471-499: bounded retry
    if pyTruthy cr3 && api.is_remote_enabled then
      let step := retryLoopAux api transports title language is_private config_file
        3 record fs2 0
      { ret := .ok step.1, fs := step.2.1, warnings := warnings,
        attempts := step.2.2, record := step.1, config_file := config_file }
    else
      { ret := .ok record, fs := fs2, warnings := warnings, attempts := 0,
        record := record, config_file := config_file }

/-- `ReplCreator.create_repl` (lines 413-501).  `cfg` is the loaded
`self.config`; `transports` says what the network does on each
successive request.  The entry-point steps receive
`config["entrypoint"]`, which equals `entryFor language` by
construction of the record. -/
def create_repl (cfg : Json) (configDir : String) (api : ReplitAPI)
    (transports : Nat → TransportOutcome) (fs : FS) (title language : String)
    (is_private : Bool) (template_file team_id : Option String)
    (create_remote : Option Bool) : CallResult :=
  -- lines 417-418: `if create_remote is None: create_remote = False`
  let cr1 : Json := match create_remote with
    | none => .bool false
    | some b => .bool b
  -- lines 420-428: downgrade with an advisory when remote is requested
  -- but the client is disabled
  let downgraded := pyTruthy cr1 && !api.is_remote_enabled
  let warnings := if downgraded then [advisoryMsg] else []
  let cr2 : Json := if downgraded then .bool false else cr1
  -- lines 431-451: build the local record
  let record := withLangDefaults language
    (baseRecord cfg language template_file team_id is_private)
  -- line 454: os.path.join(config_dir, slug + ".json")
  let config_file := configDir ++ "/" ++ slug title ++ ".json"
  -- lines 455-461: persist; an IOError becomes a fatal ConfigurationError
  match fsOpenWrite fs config_file (.jsonF record) with
  | .error e =>
    { ret := .error (.configError ("Failed to save configuration: " ++ e.toStr)
        (some config_file)),
      fs := fs, warnings := warnings, attempts := 0,
      record := record, config_file := config_file }
  | .ok fs1 =>
    -- lines 463-467: entry-point artifact (template or stub); failures
    -- there propagate uncaught (handled by `createReplFinish`)
    createReplFinish cfg api transports title language is_private cr2 warnings
      record config_file
      (match template_file with
        | some tf => create_from_template fs1 (entryFor language) tf
        | none => create_entry_point fs1 (entryFor language))
      fs1

/-! ## BulkJobRunner (lines 503-523) -/

/-- One entry of the bulk request file: `{title, language?, is_private?,
template?, team_id?, create_remote?}` — `title` is required by the bulk
file format. -/
structure BulkEntry where
  title : String
  language : Option String
  is_private : Option Bool
  template : Option String
  team_id : Option String
  create_remote : Option Bool
deriving DecidableEq

/-- One per-item result dict of `bulk_create_repls`:
`{"title", "status": "success", "config"}` or
`{"title", "status": "error", "error"}`. -/
inductive Outcome where
  | success (title : String) (config : Json)
  | error (title : String) (msg : String)
deriving DecidableEq

/-- The `title` member of an outcome dict. -/
def Outcome.title : Outcome → String
  | .success t _ => t
  | .error t _ => t

/-- Whether the outcome's `status` member is `"success"`. -/
def Outcome.isSuccess : Outcome → Bool
  | .success _ _ => true
  | .error _ _ => false

/-- An entry field falling back to a computed default.  Python's
`d.get(key, default)` evaluates `default` eagerly, so the fallback's
exceptions fire even when the field is present; `bulkResolve` below
keeps that order. -/
def resolveField {α} (given : Option α) (fallback : Except PyError α) :
    Except PyError α :=
  match given with
  | some v => .ok v
  | none => fallback

/-- A string-typed configuration default.  Python would pass a non-string
value straight through to `create_repl`; the typed model rejects it
instead.  Every configuration `validate_config` accepts has a string
here, so the branch is unreachable on validated configurations. -/
def expectStr (j : Json) : Except PyError String :=
  match j with
  | .str s => .ok s
  | _ => .error (.typeError "model: configuration default is not a string")

/-- A bool-typed configuration default (see `expectStr`). -/
def expectBool (j : Json) : Except PyError Bool :=
  match j with
  | .bool b => .ok b
  | _ => .error (.typeError "model: configuration default is not a boolean")

/-- The argument resolution of the `create_repl` call inside
`bulk_create_repls` (lines 511-518): `self.config["default_language"]`
and `self.config["default_privacy"]` are subscripted (possible
`KeyError`) as eager `.get` defaults. -/
def bulkResolve (cfg : Json) (e : BulkEntry) : Except PyError (String × Bool) := do
  let dl ← pySubscript cfg "default_language"
  let language ← resolveField e.language (expectStr dl)
  let dp ← pySubscript cfg "default_privacy"
  let is_private ← resolveField e.is_private (expectBool dp)
  .ok (language, is_private)

/-- The `try`/`except` conversion of one bulk item (lines 510-521): a
normal return becomes a `success` outcome, an exception an `error`
outcome carrying `str(e)`; partial file-system effects of a failed
`create_repl` survive either way. -/
def bulkConvert (title : String) (r : CallResult) : Outcome × FS :=
  match r.ret with
  | .ok c => (.success title c, r.fs)
  | .error err => (.error title err.toStr, r.fs)

/-- One iteration of the bulk loop (lines 509-521): resolve the entry's
defaults (possible `KeyError` on the configuration, also caught by the
`try`), run `create_repl`, convert. -/
def bulkItem (cfg : Json) (configDir : String) (api : ReplitAPI)
    (transports : Nat → TransportOutcome) (fs : FS) (e : BulkEntry) : Outcome × FS :=
  match bulkResolve cfg e with
  | .error err => (.error e.title err.toStr, fs)
  | .ok langPriv =>
    bulkConvert e.title (create_repl cfg configDir api transports fs e.title
      langPriv.1 langPriv.2 e.template e.team_id e.create_remote)

/-- `ReplCreator.bulk_create_repls` (lines 503-523) over already-decoded
entries: one outcome per entry, in order, never aborting the batch.
`transports i` is the network oracle item `i` sees. -/
def bulk_create_repls (cfg : Json) (configDir : String) (api : ReplitAPI)
    (transports : Nat → Nat → TransportOutcome) (fs : FS) :
    List BulkEntry → List Outcome × FS
  | [] => ([], fs)
  | e :: rest =>
    let step := bulkItem cfg configDir api (transports 0) fs e
    let next := bulk_create_repls cfg configDir api (fun n => transports (n + 1)) step.2 rest
    (step.1 :: next.1, next.2)

/-! ## Atomicity model for the record writes

`create_repl` persists the local record with `open(config_file, "w")`
followed by `json.dump` (lines 455-457 and 482-484).  Opening with mode
`'w'` truncates the file at once; the dump then writes the new
content.  `persistSteps`/`runSteps` expose this two-phase structure so
that interrupted executions (a crash or error between the phases) can be
examined: `runSteps` over a proper prefix of the steps is the state an
interruption leaves behind. -/

/-- One phase of a `with open(p, "w") as f: json.dump(...)` persist. -/
inductive WriteStep where
  | truncate
  | writeAll (d : FileData)
deriving DecidableEq

/-- The phases of one record persist: truncate on open, then the full
write. -/
def persistSteps (d : FileData) : List WriteStep :=
  [.truncate, .writeAll d]

/-- Apply one phase to the file's current content (the prior content is
discarded by both phases). -/
def applyStep (_prior : Option FileData) : WriteStep → Option FileData
  | .truncate => some (.textF "")
  | .writeAll d => some d

/-- Run a (possibly truncated) sequence of phases. -/
def runSteps (f : Option FileData) (steps : List WriteStep) : Option FileData :=
  steps.foldl applyStep f

/-! ## Shared concrete data for the claim scenarios -/

/-- The synthesized default configuration at a fixed timestamp. -/
def defaultCfg : Json := get_default_config "2024-01-01T00:00:00"

/-- A valid configuration whose `create_remote` default is `true`. -/
def cfgRemoteTrue : Json :=
  .obj [("default_language", .str "python"), ("templates", .obj []),
        ("team_id", .null), ("default_privacy", .bool false),
        ("create_remote", .bool true)]

/-- A successful `createRepl` mutation response body. -/
def goodBody : Json :=
  .obj [("data", .obj [("createRepl", .obj [("repl",
    .obj [("id", .str "r1"), ("url", .str "https://replit.com/@u/r1"),
          ("title", .str "T"), ("language", .str "python"),
          ("isPrivate", .bool false)])])])]

/-- The `repl` object inside `goodBody`. -/
def goodRepl : Json :=
  .obj [("id", .str "r1"), ("url", .str "https://replit.com/@u/r1"),
        ("title", .str "T"), ("language", .str "python"),
        ("isPrivate", .bool false)]

/-! ## Helper lemmas -/

/-- Looking up the path just written finds the new content. -/
theorem lookup_write_self (fs : FS) (p : String) (d : FileData) :
    (fs.write p d).lookup p = some d := by
  simp [FS.write, FS.lookup, List.lookup]

/-- Writing one path leaves every other path's lookup unchanged. -/
theorem lookup_write_ne (fs : FS) (p q : String) (d : FileData) (h : p ≠ q) :
    (fs.write p d).lookup q = fs.lookup q := by
  simp [FS.write, FS.lookup, List.lookup, beq_eq_false_iff_ne.mpr (Ne.symm h)]

/-- A string whose reversed character list does not start with `'n'`
cannot be of the form `s ++ ".json"`. -/
theorem ne_append_json (t : String) (h : t.data.reverse.head? ≠ some 'n') (s : String) :
    t ≠ s ++ ".json" := by
  intro heq
  apply h
  rw [heq]
  show (s.data ++ (".json").data).reverse.head? = some 'n'
  rw [List.reverse_append]
  rfl

/-- The entry-point file name never collides with a derived record path
(record paths end in `.json`; entry points are `main.py`, `index.js` or
empty). -/
theorem entryFor_ne_json_path (language s : String) :
    entryFor language ≠ s ++ ".json" := by
  unfold entryFor
  by_cases h1 : language == "python"
  · simp only [h1, if_true]
    exact ne_append_json "main.py" (by decide) s
  · simp only [h1, if_false]
    by_cases h2 : language == "nodejs"
    · simp only [h2, if_true]
      exact ne_append_json "index.js" (by decide) s
    · simp only [h2, if_false]
      exact ne_append_json "" (by decide) s

/-- `_create_entry_point` either leaves the file system untouched or
writes exactly the (nonempty) entry-point path. -/
theorem create_entry_point_frame (fs : FS) (ep : String) (fs2 : FS)
    (h : create_entry_point fs ep = .ok fs2) :
    fs2 = fs ∨ ∃ d, ¬(ep = "") ∧ fs2 = fs.write ep d := by
  unfold create_entry_point at h
  by_cases hex : fs.exists ep = true
  · simp only [hex, if_true] at h
    exact Or.inl (Except.ok.inj h).symm
  · simp only [hex, if_false] at h
    unfold fsOpenWrite at h
    by_cases hep : ep == ""
    · simp [hep] at h
    · simp only [hep, if_false] at h
      exact Or.inr ⟨.textF (stubContent ep), by simpa using hep, (Except.ok.inj h).symm⟩

/-- `_create_from_template` likewise touches at most the entry-point
path. -/
theorem create_from_template_frame (fs : FS) (ep tf : String) (fs2 : FS)
    (h : create_from_template fs ep tf = .ok fs2) :
    fs2 = fs ∨ ∃ d, ¬(ep = "") ∧ fs2 = fs.write ep d := by
  unfold create_from_template at h
  simp only at h
  cases hlk : fs.lookup tf with
  | none =>
    simp only [hlk] at h
    exact create_entry_point_frame fs ep fs2 h
  | some fd =>
    cases fd with
    | textF s =>
      simp only [hlk] at h
      exact create_entry_point_frame fs ep fs2 h
    | jsonF j =>
      simp only [hlk] at h
      by_cases hpy : strEndsWith ep ".py" = true
      · simp only [hpy, if_true] at h
        cases hit : pyIter j with
        | error e =>
          simp only [hit] at h
          exact create_entry_point_frame fs ep fs2 h
        | ok cmds =>
          simp only [hit] at h
          cases hbc : buildTemplateContent cmds with
          | error e =>
            simp only [hbc] at h
            exact create_entry_point_frame fs ep fs2 h
          | ok content =>
            simp only [hbc] at h
            unfold fsOpenWrite at h
            by_cases hep : ep == ""
            · simp only [hep, if_true] at h
              exact create_entry_point_frame fs ep fs2 h
            · simp only [hep, if_false] at h
              exact Or.inr ⟨.textF (String.intercalate "\n" content),
                by simpa using hep, (Except.ok.inj h).symm⟩
      · simp only [hpy, if_false] at h
        exact Or.inl (Except.ok.inj h).symm

/-- An `fsOpenWrite` that succeeded performed exactly the overwrite. -/
theorem fsOpenWrite_ok (fs : FS) (p : String) (d : FileData) (fs2 : FS)
    (h : fsOpenWrite fs p d = .ok fs2) : fs2 = fs.write p d := by
  unfold fsOpenWrite at h
  by_cases hp : p == ""
  · simp [hp] at h
  · simp only [hp, if_false] at h
    exact (Except.ok.inj h).symm

/-- The retry loop either ends without touching the record and file
system (no successful attempt) or ends having embedded a remote result
and rewritten exactly the record file. -/
theorem retryLoopAux_fs (api : ReplitAPI) (transports : Nat → TransportOutcome)
    (title language : String) (p : Bool) (cf : String) :
    ∀ remaining record fs attempts,
      (let o := retryLoopAux api transports title language p cf remaining record fs attempts
       (o.1 = record ∧ o.2.1 = fs) ∨ o.2.1 = fs.write cf (.jsonF o.1)) := by
  intro remaining
  induction remaining with
  | zero =>
    intro record fs attempts
    exact Or.inl ⟨rfl, rfl⟩
  | succ n ih =>
    intro record fs attempts
    simp only [retryLoopAux]
    cases hc : (api.create_remote_repl (transports attempts) title language p none).1 with
    | ok remote => exact Or.inr rfl
    | error e =>
      by_cases hre : e.isRequestException
      · simp only [hre, if_true]
        exact ih record fs (attempts + 1)
      · simp only [hre, if_false]
        exact Or.inl ⟨rfl, rfl⟩

/-- When the post-persist phase returns normally, the returned value is
the final record, and it is what the record path holds — provided the
entry-point step preserved the record file's content. -/
theorem createReplFinish_ok_state (cfg : Json) (api : ReplitAPI)
    (transports : Nat → TransportOutcome) (title language : String) (p : Bool)
    (cr2 : Json) (warnings : List String) (record : Json) (config_file : String)
    (entryStep : Except PyError FS) (fs1 : FS)
    (hlk : ∀ fs2, entryStep = .ok fs2 →
      FS.lookup fs2 config_file = some (.jsonF record)) :
    ∀ rec,
      (createReplFinish cfg api transports title language p cr2 warnings record
        config_file entryStep fs1).ret = .ok rec →
      rec = (createReplFinish cfg api transports title language p cr2 warnings record
        config_file entryStep fs1).record ∧
      FS.lookup (createReplFinish cfg api transports title language p cr2 warnings record
          config_file entryStep fs1).fs
        (createReplFinish cfg api transports title language p cr2 warnings record
          config_file entryStep fs1).config_file = some (.jsonF rec) := by
  intro rec
  cases entryStep with
  | error e =>
    intro h
    exact absurd h (by simp [createReplFinish])
  | ok fs2 =>
    have hlk2 := hlk fs2 rfl
    simp only [createReplFinish]
    split <;> split
    · intro h
      rcases retryLoopAux_fs api transports title language p config_file 3 record fs2 0 with
          ⟨hrec, hfs⟩ | hfs
      · refine ⟨(Except.ok.inj h).symm, ?_⟩
        rw [← Except.ok.inj h, hfs, hrec]
        exact hlk2
      · refine ⟨(Except.ok.inj h).symm, ?_⟩
        rw [← Except.ok.inj h, hfs]
        exact lookup_write_self _ _ _
    · intro h
      refine ⟨(Except.ok.inj h).symm, ?_⟩
      rw [← Except.ok.inj h]
      exact hlk2
    · intro h
      rcases retryLoopAux_fs api transports title language p config_file 3 record fs2 0 with
          ⟨hrec, hfs⟩ | hfs
      · refine ⟨(Except.ok.inj h).symm, ?_⟩
        rw [← Except.ok.inj h, hfs, hrec]
        exact hlk2
      · refine ⟨(Except.ok.inj h).symm, ?_⟩
        rw [← Except.ok.inj h, hfs]
        exact lookup_write_self _ _ _
    · intro h
      refine ⟨(Except.ok.inj h).symm, ?_⟩
      rw [← Except.ok.inj h]
      exact hlk2

/-- When `create_repl` returns normally, the value it returns is its
final record and that record is what the derived path holds on disk. -/
theorem create_repl_ok_state (cfg : Json) (configDir : String) (api : ReplitAPI)
    (transports : Nat → TransportOutcome) (fs : FS) (title language : String)
    (p : Bool) (tf tm : Option String) (cr : Option Bool) :
    ∀ rec,
      (create_repl cfg configDir api transports fs title language p tf tm cr).ret = .ok rec →
      rec = (create_repl cfg configDir api transports fs title language p tf tm cr).record ∧
      FS.lookup (create_repl cfg configDir api transports fs title language p tf tm cr).fs
          (create_repl cfg configDir api transports fs title language p tf tm cr).config_file =
        some (.jsonF rec) := by
  intro rec
  simp only [create_repl]
  cases hw : fsOpenWrite fs (configDir ++ "/" ++ slug title ++ ".json")
      (.jsonF (withLangDefaults language (baseRecord cfg language tf tm p))) with
  | error e => intro h; exact absurd h (by simp)
  | ok fs1 =>
    simp only
    have hfs1 : fs1 = fs.write (configDir ++ "/" ++ slug title ++ ".json")
        (.jsonF (withLangDefaults language (baseRecord cfg language tf tm p))) :=
      fsOpenWrite_ok _ _ _ _ hw
    refine createReplFinish_ok_state _ _ _ _ _ _ _ _ _ _ _ _ ?_ rec
    intro fs2 het
    have hfr : fs2 = fs1 ∨ ∃ d, ¬(entryFor language = "") ∧
        fs2 = fs1.write (entryFor language) d := by
      cases tf with
      | some t =>
        simp only at het
        exact create_from_template_frame fs1 (entryFor language) t fs2 het
      | none =>
        simp only at het
        exact create_entry_point_frame fs1 (entryFor language) fs2 het
    rcases hfr with hfr | ⟨d, _, hfr⟩
    · rw [hfr, hfs1]; exact lookup_write_self _ _ _
    · rw [hfr, lookup_write_ne _ _ _ _ (entryFor_ne_json_path language _), hfs1]
      exact lookup_write_self _ _ _

/-! ## Error classification of the remote client

The retry loop of `create_repl` retries exactly on
`requests.exceptions.RequestException` (line 488).  The following chain
shows that `create_remote_repl` — whose `_graphql_request` re-raises
every `requests` exception as `ValueError` — can never hand the loop
such an exception, so the retry branch is unreachable code. -/

/-- `pyContains` only ever raises `TypeError`. -/
theorem pyContains_not_reqexc (j : Json) (f : String) (e : PyError)
    (h : pyContains j f = .error e) : e.isRequestException = false := by
  unfold pyContains at h
  cases j with
  | null => exact (Except.error.inj h) ▸ rfl
  | bool b => exact (Except.error.inj h) ▸ rfl
  | num n => exact (Except.error.inj h) ▸ rfl
  | str s => exact Except.noConfusion h
  | arr xs => exact Except.noConfusion h
  | obj fields => exact Except.noConfusion h

/-- `pySubscript` only ever raises `KeyError` or `TypeError`. -/
theorem pySubscript_not_reqexc (j : Json) (f : String) (e : PyError)
    (h : pySubscript j f = .error e) : e.isRequestException = false := by
  unfold pySubscript at h
  cases j with
  | null => exact (Except.error.inj h) ▸ rfl
  | bool b => exact (Except.error.inj h) ▸ rfl
  | num n => exact (Except.error.inj h) ▸ rfl
  | str s => exact (Except.error.inj h) ▸ rfl
  | arr xs => exact (Except.error.inj h) ▸ rfl
  | obj fields =>
    cases hl : fields.lookup f with
    | some v => simp [hl] at h
    | none =>
      simp only [hl] at h
      exact (Except.error.inj h) ▸ rfl

/-- `pyGet` only ever raises `AttributeError`. -/
theorem pyGet_not_reqexc (j : Json) (f : String) (d : Json) (e : PyError)
    (h : pyGet j f d = .error e) : e.isRequestException = false := by
  unfold pyGet at h
  cases j with
  | null => exact (Except.error.inj h) ▸ rfl
  | bool b => exact (Except.error.inj h) ▸ rfl
  | num n => exact (Except.error.inj h) ▸ rfl
  | str s => exact (Except.error.inj h) ▸ rfl
  | arr xs => exact (Except.error.inj h) ▸ rfl
  | obj fields => exact Except.noConfusion h

/-- `pyIter` only ever raises `TypeError`. -/
theorem pyIter_not_reqexc (j : Json) (e : PyError)
    (h : pyIter j = .error e) : e.isRequestException = false := by
  unfold pyIter at h
  cases j with
  | null => exact (Except.error.inj h) ▸ rfl
  | bool b => exact (Except.error.inj h) ▸ rfl
  | num n => exact (Except.error.inj h) ▸ rfl
  | str s => exact Except.noConfusion h
  | arr xs => exact Except.noConfusion h
  | obj fields => exact Except.noConfusion h

/-- `errorMessages` only fails with `pyGet`'s `AttributeError`. -/
theorem errorMessages_not_reqexc : ∀ (errs : List Json) (e : PyError),
    errorMessages errs = .error e → e.isRequestException = false := by
  intro errs
  induction errs with
  | nil => intro e h; exact Except.noConfusion h
  | cons x xs ih =>
    intro e h
    unfold errorMessages at h
    cases hg : pyGet x "message" (.str "Unknown error") with
    | error err =>
      simp only [hg] at h
      exact (Except.error.inj h) ▸ pyGet_not_reqexc x "message" _ err hg
    | ok m =>
      simp only [hg] at h
      cases hr : errorMessages xs with
      | error err =>
        simp only [hr] at h
        exact (Except.error.inj h) ▸ ih err hr
      | ok ms => simp [hr] at h

/-- `_handle_api_response` raises only `ValueError` and the `in`/`[]`
classification errors — never a `requests` exception. -/
theorem handle_api_response_not_reqexc (status : Nat) (body : Option Json)
    (text : String) (e : PyError)
    (h : handle_api_response status body text = .error e) :
    e.isRequestException = false := by
  unfold handle_api_response at h
  by_cases h200 : (status == 200) = true
  · simp only [h200, if_true] at h
    cases body with
    | none => exact (Except.error.inj h) ▸ rfl
    | some j =>
      by_cases hnull : (j == Json.null) = true
      · simp only [hnull, if_true] at h
        exact (Except.error.inj h) ▸ rfl
      · simp only [hnull, if_false] at h
        cases hc : pyContains j "errors" with
        | error ec =>
          simp only [hc] at h
          exact (Except.error.inj h) ▸ pyContains_not_reqexc j "errors" ec hc
        | ok b =>
          simp only [hc] at h
          cases b with
          | false => exact Except.noConfusion h
          | true =>
            cases hs : pySubscript j "errors" with
            | error es =>
              simp only [hs] at h
              exact (Except.error.inj h) ▸ pySubscript_not_reqexc j "errors" es hs
            | ok errsVal =>
              simp only [hs] at h
              cases hi : pyIter errsVal with
              | error ei =>
                simp only [hi] at h
                exact (Except.error.inj h) ▸ pyIter_not_reqexc errsVal ei hi
              | ok errs =>
                simp only [hi] at h
                cases hm : errorMessages errs with
                | error em =>
                  simp only [hm] at h
                  exact (Except.error.inj h) ▸ errorMessages_not_reqexc errs em hm
                | ok msgs =>
                  simp only [hm] at h
                  exact (Except.error.inj h) ▸ rfl
  · simp only [h200, if_false] at h
    by_cases h401 : (status == 401) = true
    · simp only [h401, if_true] at h
      exact (Except.error.inj h) ▸ rfl
    · simp only [h401, if_false] at h
      by_cases h403 : (status == 403) = true
      · simp only [h403, if_true] at h
        exact (Except.error.inj h) ▸ rfl
      · simp only [h403, if_false] at h
        by_cases h429 : (status == 429) = true
        · simp only [h429, if_true] at h
          exact (Except.error.inj h) ▸ rfl
        · simp only [h429, if_false] at h
          exact (Except.error.inj h) ▸ rfl

/-- `_graphql_request` re-raises every transport failure as `ValueError`:
no `requests.exceptions.RequestException` ever escapes it. -/
theorem graphql_request_not_reqexc (t : TransportOutcome) (e : PyError)
    (h : graphql_request t = .error e) : e.isRequestException = false := by
  unfold graphql_request at h
  cases t with
  | connectionError => exact (Except.error.inj h) ▸ rfl
  | timeout => exact (Except.error.inj h) ▸ rfl
  | otherRequestError m => exact (Except.error.inj h) ▸ rfl
  | response status body text => exact handle_api_response_not_reqexc status body text e h

/-- `create_remote_repl` never raises a `requests` exception — whatever
the transport does, the retry loop's `except
requests.exceptions.RequestException` branch can never match. -/
theorem create_remote_repl_not_reqexc (api : ReplitAPI) (t : TransportOutcome)
    (title language : String) (p : Bool) (tid : Option String) (e : PyError)
    (h : (api.create_remote_repl t title language p tid).1 = .error e) :
    e.isRequestException = false := by
  unfold ReplitAPI.create_remote_repl at h
  by_cases hen : (!api.is_remote_enabled) = true
  · simp only [hen, if_true] at h
    exact (Except.error.inj h) ▸ rfl
  · simp only [hen, if_false] at h
    cases hg : graphql_request t with
    | error eg =>
      simp only [hg] at h
      exact (Except.error.inj h) ▸ graphql_request_not_reqexc t eg hg
    | ok resp =>
      simp only [hg] at h
      cases hc : (if pyTruthy resp then pyContains resp "data" else .ok false :
          Except PyError Bool) with
      | error ec =>
        simp only [hc] at h
        refine (Except.error.inj h) ▸ ?_
        by_cases ht : pyTruthy resp = true
        · simp only [ht, if_true] at hc
          exact pyContains_not_reqexc resp "data" ec hc
        · simp only [ht, if_false] at hc
          exact Except.noConfusion hc
      | ok b =>
        simp only [hc] at h
        cases b with
        | false => exact (Except.error.inj h) ▸ rfl
        | true =>
          cases hs : pySubscript resp "data" with
          | error es =>
            simp only [hs] at h
            exact (Except.error.inj h) ▸ pySubscript_not_reqexc resp "data" es hs
          | ok d =>
            simp only [hs] at h
            cases hg1 : pyGet d "createRepl" (.obj []) with
            | error e1 =>
              simp only [hg1] at h
              exact (Except.error.inj h) ▸ pyGet_not_reqexc d "createRepl" _ e1 hg1
            | ok cr =>
              simp only [hg1] at h
              cases hg2 : pyGet cr "repl" (.obj []) with
              | error e2 =>
                simp only [hg2] at h
                exact (Except.error.inj h) ▸ pyGet_not_reqexc cr "repl" _ e2 hg2
              | ok repl =>
                simp only [hg2] at h
                exact Except.noConfusion h

/-- With the integrated client, a failed attempt always ends the retry
loop at once: the caught exception is never a `RequestException`, so the
`retry_count` branch — and with it any second attempt — is dead code. -/
theorem retryLoopAux_no_retry (api : ReplitAPI) (transports : Nat → TransportOutcome)
    (title language : String) (p : Bool) (cf : String) (remaining : Nat)
    (record : Json) (fs : FS) (attempts : Nat) (e : PyError)
    (h : (api.create_remote_repl (transports attempts) title language p none).1 = .error e) :
    retryLoopAux api transports title language p cf (remaining + 1) record fs attempts =
      (record, fs, attempts + 1) := by
  simp only [retryLoopAux, h]
  simp [create_remote_repl_not_reqexc api (transports attempts) title language p none e h]

/-- Writing to a nonempty path always succeeds in this model. -/
theorem fsOpenWrite_ne_empty (fs : FS) (p : String) (d : FileData) (h : ¬(p = "")) :
    fsOpenWrite fs p d = .ok (fs.write p d) := by
  unfold fsOpenWrite
  simp [h]

/-- The record dict `create_repl` builds never contains a `remote` key
(that key only appears after a successful remote attempt). -/
theorem record_no_remote (cfg : Json) (language : String) (tf tm : Option String)
    (p : Bool) :
    pyContains (withLangDefaults language (baseRecord cfg language tf tm p)) "remote" =
      .ok false := by
  unfold withLangDefaults baseRecord
  by_cases h1 : (language == "python") = true
  · simp only [h1, if_true]
    rfl
  · simp only [h1, if_false]
    by_cases h2 : (language == "nodejs") = true
    · simp only [h2, if_true]
      rfl
    · simp only [h2, if_false]
      rfl

/-- The `warnings` member of a finished call is exactly the list the
downgrade step produced, whatever else happened. -/
theorem createReplFinish_warnings (cfg : Json) (api : ReplitAPI)
    (transports : Nat → TransportOutcome) (title language : String) (p : Bool)
    (cr2 : Json) (w : List String) (record : Json) (cf : String)
    (es : Except PyError FS) (fs1 : FS) :
    (createReplFinish cfg api transports title language p cr2 w record cf es fs1).warnings
      = w := by
  cases es with
  | error e => rfl
  | ok fs2 =>
    simp only [createReplFinish]
    split <;> split <;> rfl

/-- `ret`, `fs`, `attempts` and `record` of a finished call do not
depend on the warnings already printed. -/
theorem createReplFinish_warnings_indep (cfg : Json) (api : ReplitAPI)
    (transports : Nat → TransportOutcome) (title language : String) (p : Bool)
    (cr2 : Json) (w1 w2 : List String) (record : Json) (cf : String)
    (es : Except PyError FS) (fs1 : FS) :
    (createReplFinish cfg api transports title language p cr2 w1 record cf es fs1).ret =
      (createReplFinish cfg api transports title language p cr2 w2 record cf es fs1).ret ∧
    (createReplFinish cfg api transports title language p cr2 w1 record cf es fs1).fs =
      (createReplFinish cfg api transports title language p cr2 w2 record cf es fs1).fs ∧
    (createReplFinish cfg api transports title language p cr2 w1 record cf es fs1).attempts =
      (createReplFinish cfg api transports title language p cr2 w2 record cf es fs1).attempts ∧
    (createReplFinish cfg api transports title language p cr2 w1 record cf es fs1).record =
      (createReplFinish cfg api transports title language p cr2 w2 record cf es fs1).record := by
  cases es with
  | error e => exact ⟨rfl, rfl, rfl, rfl⟩
  | ok fs2 =>
    simp only [createReplFinish]
    split <;> split <;> exact ⟨rfl, rfl, rfl, rfl⟩

/-- With the remote flag resolved to `False`, the finish phase makes no
attempt and leaves the record as built. -/
theorem createReplFinish_local (cfg : Json) (api : ReplitAPI)
    (transports : Nat → TransportOutcome) (title language : String) (p : Bool)
    (w : List String) (record : Json) (cf : String) (es : Except PyError FS) (fs1 : FS) :
    (createReplFinish cfg api transports title language p (.bool false) w record cf
      es fs1).attempts = 0 ∧
    (createReplFinish cfg api transports title language p (.bool false) w record cf
      es fs1).record = record := by
  cases es with
  | error e => exact ⟨rfl, rfl⟩
  | ok fs2 => exact ⟨rfl, rfl⟩

/-! ## Bulk runner lemmas -/

/-- One outcome is produced per entry: a failed item never shortens or
aborts the batch. -/
theorem bulk_create_repls_length (cfg : Json) (configDir : String) (api : ReplitAPI) :
    ∀ (entries : List BulkEntry) (transports : Nat → Nat → TransportOutcome) (fs : FS),
      (bulk_create_repls cfg configDir api transports fs entries).1.length =
        entries.length := by
  intro entries
  induction entries with
  | nil => intro transports fs; rfl
  | cons e rest ih =>
    intro transports fs
    simp [bulk_create_repls, ih]

/-- The `i`-th outcome is exactly the outcome of running item `i` alone
on the state the first `i` items left behind: items are processed in
order and an earlier item's failure changes nothing about how later
items are run. -/
theorem bulk_create_repls_getD (cfg : Json) (configDir : String) (api : ReplitAPI) :
    ∀ (entries : List BulkEntry) (transports : Nat → Nat → TransportOutcome) (fs : FS)
      (i : Nat), i < entries.length →
      (bulk_create_repls cfg configDir api transports fs entries).1.getD i (.error "" "") =
        (bulkItem cfg configDir api (transports i)
          (bulk_create_repls cfg configDir api transports fs (entries.take i)).2
          (entries.getD i ⟨"", none, none, none, none, none⟩)).1 := by
  intro entries
  induction entries with
  | nil => intro transports fs i h; exact absurd h (by simp)
  | cons e rest ih =>
    intro transports fs i h
    cases i with
    | zero =>
      simp only [bulk_create_repls, List.getD_cons_zero, List.take_zero]
    | succ n =>
      simp only [bulk_create_repls, List.getD_cons_succ, List.take_succ_cons]
      exact ih (fun a => transports (a + 1))
        (bulkItem cfg configDir api (transports 0) fs e).2 n
        (Nat.lt_of_succ_lt_succ h)

/-- The converted outcome always carries the given title. -/
theorem bulkConvert_title (title : String) (r : CallResult) :
    ((bulkConvert title r).1).title = title := by
  obtain ⟨ret, fs', w, a, rec, cf⟩ := r
  cases ret <;> rfl

/-- Every outcome carries the title of its own entry. -/
theorem bulkItem_title (cfg : Json) (configDir : String) (api : ReplitAPI)
    (tr : Nat → TransportOutcome) (fs : FS) (e : BulkEntry) :
    ((bulkItem cfg configDir api tr fs e).1).title = e.title := by
  unfold bulkItem
  cases hbr : bulkResolve cfg e with
  | error err => rfl
  | ok lp => exact bulkConvert_title e.title _

/-! ## Concrete bulk entries for the specification scenario -/

/-- Bulk entry A: a valid python request. -/
def bulkA : BulkEntry := ⟨"A", some "python", none, none, none, none⟩

/-- Bulk entry B: an unrecognized language, which makes `create_repl`
raise while creating the entry point. -/
def bulkB : BulkEntry := ⟨"B", some "ruby", none, none, none, none⟩

/-- Bulk entry C: a second valid python request. -/
def bulkC : BulkEntry := ⟨"C", some "python", none, none, none, none⟩

/-! ## Claim theorems -/

/-- C3 counterexample: the record persist (`open(config_file, "w")` +
`json.dump`, lines 455-457 and 482-484) is not all-or-nothing.  With a
previous document on disk and a new one to write, interrupting after
the truncating `open` leaves a state that is neither the previous nor
the new document — an empty file. -/
theorem c3_persist_interrupted_counterexample :
    ¬ (runSteps (some (.jsonF (.obj [("run", .str "python main.py")])))
        ((persistSteps (.jsonF (.obj [("run", .str "node index.js")]))).take 1) =
        some (.jsonF (.obj [("run", .str "python main.py")])) ∨
       runSteps (some (.jsonF (.obj [("run", .str "python main.py")])))
        ((persistSteps (.jsonF (.obj [("run", .str "node index.js")]))).take 1) =
        some (.jsonF (.obj [("run", .str "node index.js")]))) := by
  decide

/-- C3 (amended): a completed persist does land the whole new document,
but the write is not atomic — mode `'w'` truncates at `open`, so from
the very first step the previous document is destroyed, and an
interruption between the phases leaves an empty (partially written)
file rather than the previous document. -/
theorem c3_persist_steps_amended (old : Option FileData) (d : FileData) :
    runSteps old (persistSteps d) = some d ∧
    runSteps old ((persistSteps d).take 1) = some (.textF "") :=
  ⟨rfl, rfl⟩

/-- C6: a configuration that passes `ConfigValidator.validate_config`
survives a `ReplConfig.save` / `ReplConfig.load` round trip unchanged. -/
theorem c6_config_roundtrip (fs : FS) (path now : String) (cfg : Json)
    (h : validate_config cfg = .ok ()) :
    ∃ fs2, ReplConfig.save fs path cfg = .ok fs2 ∧
      ReplConfig.load fs2 path now = .ok cfg := by
  refine ⟨fs.write path (.jsonF cfg), ?_, ?_⟩
  · unfold ReplConfig.save
    rw [h]
  · unfold ReplConfig.load
    rw [show (fs.write path (.jsonF cfg)).lookup path = some (.jsonF cfg) from
      lookup_write_self fs path (.jsonF cfg)]
    show (do validate_config cfg; (Except.ok cfg : Except PyError Json)) = Except.ok cfg
    rw [h]
    rfl

/-- C6 witness: the synthesized default configuration round-trips. -/
theorem c6_config_roundtrip_witness :
    ∃ fs2, ReplConfig.save [] "repl_creator_config.json" defaultCfg = .ok fs2 ∧
      ReplConfig.load fs2 "repl_creator_config.json" "2024-01-02" = .ok defaultCfg :=
  c6_config_roundtrip [] "repl_creator_config.json" "2024-01-02" defaultCfg (by decide)

/-- C7 counterexample: the disabled-mode failure of `create_remote_repl`
is not a distinct error class.  It is a plain `ValueError` — the same
Python class `_graphql_request` uses for its connection-failure
(`UnreachableError`) classification — so callers cannot special-case
"not configured" versus "call failed" by exception class. -/
theorem c7_disabled_error_class_counterexample :
    ((ReplitAPI.mk none).create_remote_repl .connectionError "T" "python" false none).1 =
      .error (.valueError remoteDisabledMsg) ∧
    graphql_request .connectionError = .error (.valueError unreachableMsg) ∧
    (PyError.valueError remoteDisabledMsg).pyClass =
      (PyError.valueError unreachableMsg).pyClass :=
  ⟨rfl, rfl, rfl⟩

/-- C7 (amended): on a disabled client, `create_remote_repl` always
fails immediately with the fixed remote-unavailable `ValueError` —
distinguishable from the transport classifications only by message, not
by exception class — and performs no network request; `get_templates`
returns an empty list without error and without network I/O. -/
theorem c7_disabled_client_amended (t : TransportOutcome) (title language : String)
    (p : Bool) (tid : Option String) :
    (ReplitAPI.mk none).create_remote_repl t title language p tid =
      (.error (.valueError remoteDisabledMsg), 0) ∧
    (ReplitAPI.mk none).get_templates t = (.ok (.arr []), 0) ∧
    remoteDisabledMsg ≠ unreachableMsg ∧
    remoteDisabledMsg ≠ timeoutMsg :=
  ⟨rfl, rfl, by decide, by decide⟩

/-- C8: the concrete python scenario.  `create_repl` on
`{title: "My Repl", language: "python"}` with a disabled client, no
template and default privacy returns the claimed record, persists it at
`<config_dir>/my_repl.json`, and writes the one-line `main.py` stub. -/
theorem c8_python_scenario :
    (create_repl defaultCfg ".repl-configs" ⟨none⟩ (fun _ => .timeout) []
      "My Repl" "python" false none none none).ret =
      .ok (create_repl defaultCfg ".repl-configs" ⟨none⟩ (fun _ => .timeout) []
        "My Repl" "python" false none none none).record ∧
    pySubscript (create_repl defaultCfg ".repl-configs" ⟨none⟩ (fun _ => .timeout) []
      "My Repl" "python" false none none none).record "run" = .ok (.str "python main.py") ∧
    pySubscript (create_repl defaultCfg ".repl-configs" ⟨none⟩ (fun _ => .timeout) []
      "My Repl" "python" false none none none).record "language" = .ok (.str "python") ∧
    pySubscript (create_repl defaultCfg ".repl-configs" ⟨none⟩ (fun _ => .timeout) []
      "My Repl" "python" false none none none).record "entrypoint" = .ok (.str "main.py") ∧
    pySubscript (create_repl defaultCfg ".repl-configs" ⟨none⟩ (fun _ => .timeout) []
      "My Repl" "python" false none none none).record "packager" =
      .ok (.obj [("language", .str "python"), ("ignoredPaths", .arr [.str ".git"])]) ∧
    pySubscript (create_repl defaultCfg ".repl-configs" ⟨none⟩ (fun _ => .timeout) []
      "My Repl" "python" false none none none).record "is_private" = .ok (.bool false) ∧
    (create_repl defaultCfg ".repl-configs" ⟨none⟩ (fun _ => .timeout) []
      "My Repl" "python" false none none none).config_file =
      ".repl-configs/my_repl.json" ∧
    FS.lookup (create_repl defaultCfg ".repl-configs" ⟨none⟩ (fun _ => .timeout) []
        "My Repl" "python" false none none none).fs ".repl-configs/my_repl.json" =
      some (.jsonF (create_repl defaultCfg ".repl-configs" ⟨none⟩ (fun _ => .timeout) []
        "My Repl" "python" false none none none).record) ∧
    FS.lookup (create_repl defaultCfg ".repl-configs" ⟨none⟩ (fun _ => .timeout) []
        "My Repl" "python" false none none none).fs "main.py" =
      some (.textF "print(\"Hello from your new Repl!\")\n") := by
  decide

/-- C9 counterexample: a request with an unrecognized language and no
template does not complete successfully — `_create_entry_point` runs
`open('', 'w')` on the blank entrypoint and `FileNotFoundError`
propagates out of `create_repl`. -/
theorem c9_unrecognized_language_counterexample :
    (create_repl defaultCfg ".repl-configs" ⟨none⟩ (fun _ => .timeout) []
      "X" "ruby" false none none none).ret = .error (.fileNotFound "") := by
  decide

/-- C9 (amended): for a language outside the registry, the record
skeleton does leave `run` and `entrypoint` blank and is persisted at
the derived path, but with no template supplied the subsequent stub
creation opens the blank filename and the call raises
`FileNotFoundError` instead of completing successfully. -/
theorem c9_unrecognized_language_amended (cfg : Json) (configDir : String)
    (api : ReplitAPI) (transports : Nat → TransportOutcome) (fs : FS)
    (title : String) (p : Bool) (tm : Option String) (cr : Option Bool)
    (language : String) (h1 : language ≠ "python") (h2 : language ≠ "nodejs") :
    (create_repl cfg configDir api transports fs title language p none tm cr).ret =
      .error (.fileNotFound "") ∧
    FS.lookup (create_repl cfg configDir api transports fs title language p none tm cr).fs
        (create_repl cfg configDir api transports fs title language p none tm cr).config_file
      = some (.jsonF
        (create_repl cfg configDir api transports fs title language p none tm cr).record) ∧
    pySubscript (create_repl cfg configDir api transports fs title language p none tm
      cr).record "run" = .ok (.str "") ∧
    pySubscript (create_repl cfg configDir api transports fs title language p none tm
      cr).record "entrypoint" = .ok (.str "") := by
  have hef : entryFor language = "" := by
    unfold entryFor
    simp [h1, h2]
  have hwld : withLangDefaults language (baseRecord cfg language none tm p) =
      baseRecord cfg language none tm p := by
    unfold withLangDefaults
    simp [h1, h2]
  have hcf : ¬(configDir ++ "/" ++ slug title ++ ".json" = "") :=
    fun he => ne_append_json "" (by decide) (configDir ++ "/" ++ slug title) he.symm
  simp only [create_repl, hef, hwld]
  rw [fsOpenWrite_ne_empty _ _ _ hcf]
  simp only [createReplFinish]
  refine ⟨rfl, ?_, ?_, ?_⟩
  · exact lookup_write_self _ _ _
  · unfold baseRecord pySubscript
    rfl
  · unfold baseRecord pySubscript
    rfl

/-- C9 witness: the amended statement at the concrete `ruby` request. -/
theorem c9_unrecognized_language_witness :
    (create_repl defaultCfg ".repl-configs" ⟨none⟩ (fun _ => .timeout) []
      "X" "ruby" false none none none).ret = .error (.fileNotFound "") ∧
    FS.lookup (create_repl defaultCfg ".repl-configs" ⟨none⟩ (fun _ => .timeout) []
        "X" "ruby" false none none none).fs
      (create_repl defaultCfg ".repl-configs" ⟨none⟩ (fun _ => .timeout) []
        "X" "ruby" false none none none).config_file = some (.jsonF
        (create_repl defaultCfg ".repl-configs" ⟨none⟩ (fun _ => .timeout) []
          "X" "ruby" false none none none).record) ∧
    pySubscript (create_repl defaultCfg ".repl-configs" ⟨none⟩ (fun _ => .timeout) []
      "X" "ruby" false none none none).record "run" = .ok (.str "") ∧
    pySubscript (create_repl defaultCfg ".repl-configs" ⟨none⟩ (fun _ => .timeout) []
      "X" "ruby" false none none none).record "entrypoint" = .ok (.str "") :=
  c9_unrecognized_language_amended defaultCfg ".repl-configs" ⟨none⟩ (fun _ => .timeout)
    [] "X" false none none "ruby" (by decide) (by decide)

/-- C10: `_create_entry_point` never touches an existing file — when the
entry-point path exists, the file system is returned unchanged.  In the
concrete collision scenario, a pre-existing `main.py` with user content
survives two provisioning calls whose titles `"Demo"` and `"demo"` both
derive `demo.json`; the second call overwrites the record (the privacy
flag flips) but leaves `main.py` untouched. -/
theorem c10_entry_point_preserved :
    (∀ (fs : FS) (ep : String), FS.exists fs ep = true →
      create_entry_point fs ep = .ok fs) ∧
    ((create_repl defaultCfg ".repl-configs" ⟨none⟩ (fun _ => .timeout)
        [("main.py", .textF "custom user code")]
        "Demo" "python" false none none none).config_file =
      ".repl-configs/demo.json" ∧
     (create_repl defaultCfg ".repl-configs" ⟨none⟩ (fun _ => .timeout)
        (create_repl defaultCfg ".repl-configs" ⟨none⟩ (fun _ => .timeout)
          [("main.py", .textF "custom user code")]
          "Demo" "python" false none none none).fs
        "demo" "python" true none none none).config_file =
      ".repl-configs/demo.json" ∧
     FS.lookup (create_repl defaultCfg ".repl-configs" ⟨none⟩ (fun _ => .timeout)
        (create_repl defaultCfg ".repl-configs" ⟨none⟩ (fun _ => .timeout)
          [("main.py", .textF "custom user code")]
          "Demo" "python" false none none none).fs
        "demo" "python" true none none none).fs ".repl-configs/demo.json" =
      some (.jsonF (create_repl defaultCfg ".repl-configs" ⟨none⟩ (fun _ => .timeout)
        (create_repl defaultCfg ".repl-configs" ⟨none⟩ (fun _ => .timeout)
          [("main.py", .textF "custom user code")]
          "Demo" "python" false none none none).fs
        "demo" "python" true none none none).record) ∧
     pySubscript (create_repl defaultCfg ".repl-configs" ⟨none⟩ (fun _ => .timeout)
        (create_repl defaultCfg ".repl-configs" ⟨none⟩ (fun _ => .timeout)
          [("main.py", .textF "custom user code")]
          "Demo" "python" false none none none).fs
        "demo" "python" true none none none).record "is_private" = .ok (.bool true) ∧
     pySubscript (create_repl defaultCfg ".repl-configs" ⟨none⟩ (fun _ => .timeout)
        [("main.py", .textF "custom user code")]
        "Demo" "python" false none none none).record "is_private" = .ok (.bool false) ∧
     FS.lookup (create_repl defaultCfg ".repl-configs" ⟨none⟩ (fun _ => .timeout)
        (create_repl defaultCfg ".repl-configs" ⟨none⟩ (fun _ => .timeout)
          [("main.py", .textF "custom user code")]
          "Demo" "python" false none none none).fs
        "demo" "python" true none none none).fs "main.py" =
      some (.textF "custom user code")) := by
  constructor
  · intro fs ep h
    unfold create_entry_point
    simp [h]
  · decide

/-- C10 witness: an existing entry-point file is left unchanged. -/
theorem c10_entry_point_preserved_witness :
    create_entry_point [("app.py", .textF "x")] "app.py" =
      .ok [("app.py", .textF "x")] :=
  c10_entry_point_preserved.1 [("app.py", .textF "x")] "app.py" (by decide)

/-- C5: the bulk runner produces one outcome per entry in input order;
the `i`-th outcome is exactly the conversion of running entry `i` on
the state its predecessors left (a failing entry becomes an `error`
outcome and never aborts the batch or changes how the other entries
run); every outcome carries its entry's title.  Concretely, the batch
`[A(valid), B(invalid language), C(valid)]` yields
`[success, error, success]` in that order, with C's outcome identical
to running C by itself. -/
theorem c5_bulk_isolation (cfg : Json) (configDir : String) (api : ReplitAPI)
    (transports : Nat → Nat → TransportOutcome) (fs : FS) (entries : List BulkEntry) :
    ((bulk_create_repls cfg configDir api transports fs entries).1.length =
      entries.length) ∧
    (∀ i, i < entries.length →
      (bulk_create_repls cfg configDir api transports fs entries).1.getD i (.error "" "") =
        (bulkItem cfg configDir api (transports i)
          (bulk_create_repls cfg configDir api transports fs (entries.take i)).2
          (entries.getD i ⟨"", none, none, none, none, none⟩)).1 ∧
      ((bulk_create_repls cfg configDir api transports fs entries).1.getD i
          (.error "" "")).title =
        (entries.getD i ⟨"", none, none, none, none, none⟩).title) ∧
    ((bulk_create_repls defaultCfg ".repl-configs" ⟨none⟩ (fun _ _ => .timeout) []
        [bulkA, bulkB, bulkC]).1.map Outcome.isSuccess = [true, false, true]) ∧
    ((bulk_create_repls defaultCfg ".repl-configs" ⟨none⟩ (fun _ _ => .timeout) []
        [bulkA, bulkB, bulkC]).1.getD 2 (.error "" "") =
      (bulkItem defaultCfg ".repl-configs" ⟨none⟩ (fun _ => .timeout) [] bulkC).1) := by
  refine ⟨bulk_create_repls_length cfg configDir api entries transports fs, ?_,
    by decide, by decide⟩
  intro i h
  refine ⟨bulk_create_repls_getD cfg configDir api entries transports fs i h, ?_⟩
  rw [bulk_create_repls_getD cfg configDir api entries transports fs i h]
  exact bulkItem_title cfg configDir api (transports i) _ _

/-- C5 witness: the middle entry of the concrete batch keeps its title
and is the conversion of its own run. -/
theorem c5_bulk_isolation_witness :
    ((bulk_create_repls defaultCfg ".repl-configs" ⟨none⟩ (fun _ _ => .timeout) []
      [bulkA, bulkB, bulkC]).1.getD 1 (.error "" "")).title = "B" := by
  have h := (c5_bulk_isolation defaultCfg ".repl-configs" ⟨none⟩ (fun _ _ => .timeout) []
    [bulkA, bulkB, bulkC]).2.1 1 (by decide)
  exact h.2.trans (by decide)

/-- C4: with the client disabled, a request carrying
`create_remote=True` downgrades to local-only: the advisory warning is
emitted, no remote attempt is made, the call behaves exactly like the
corresponding local-only call (same return or exception, same
file-system effects — so the unavailable remote never causes a raise),
the built record has no `remote` member, and a normal return is the
record persisted at the derived path. -/
theorem c4_remote_disabled_downgrade (cfg : Json) (configDir : String)
    (api : ReplitAPI) (transports : Nat → TransportOutcome) (fs : FS)
    (title language : String) (p : Bool) (tf tm : Option String)
    (hdis : api.is_remote_enabled = false) :
    (create_repl cfg configDir api transports fs title language p tf tm
      (some true)).warnings = [advisoryMsg] ∧
    (create_repl cfg configDir api transports fs title language p tf tm
      (some true)).attempts = 0 ∧
    (create_repl cfg configDir api transports fs title language p tf tm (some true)).ret =
      (create_repl cfg configDir api transports fs title language p tf tm (some false)).ret ∧
    (create_repl cfg configDir api transports fs title language p tf tm (some true)).fs =
      (create_repl cfg configDir api transports fs title language p tf tm (some false)).fs ∧
    pyContains (create_repl cfg configDir api transports fs title language p tf tm
      (some true)).record "remote" = .ok false ∧
    (∀ rec, (create_repl cfg configDir api transports fs title language p tf tm
        (some true)).ret = .ok rec →
      rec = (create_repl cfg configDir api transports fs title language p tf tm
        (some true)).record ∧
      FS.lookup (create_repl cfg configDir api transports fs title language p tf tm
          (some true)).fs
        (create_repl cfg configDir api transports fs title language p tf tm
          (some true)).config_file = some (.jsonF rec)) := by
  refine ⟨?_, ?_, ?_, ?_, ?_,
    create_repl_ok_state cfg configDir api transports fs title language p tf tm (some true)⟩
  · simp only [create_repl, hdis, pyTruthy, Bool.not_false, Bool.and_self]
    cases hw : fsOpenWrite fs (configDir ++ "/" ++ slug title ++ ".json")
        (.jsonF (withLangDefaults language (baseRecord cfg language tf tm p))) with
    | error e => rfl
    | ok fs1 => exact createReplFinish_warnings _ _ _ _ _ _ _ _ _ _ _ _
  · simp only [create_repl, hdis, pyTruthy, Bool.not_false, Bool.and_self]
    cases hw : fsOpenWrite fs (configDir ++ "/" ++ slug title ++ ".json")
        (.jsonF (withLangDefaults language (baseRecord cfg language tf tm p))) with
    | error e => rfl
    | ok fs1 =>
      exact (createReplFinish_local _ _ _ _ _ _ _ _ _ _ _).1
  · simp only [create_repl, hdis, pyTruthy, Bool.not_false, Bool.and_self]
    cases hw : fsOpenWrite fs (configDir ++ "/" ++ slug title ++ ".json")
        (.jsonF (withLangDefaults language (baseRecord cfg language tf tm p))) with
    | error e => rfl
    | ok fs1 =>
      exact (createReplFinish_warnings_indep _ _ _ _ _ _ _ _ _ _ _ _ _).1
  · simp only [create_repl, hdis, pyTruthy, Bool.not_false, Bool.and_self]
    cases hw : fsOpenWrite fs (configDir ++ "/" ++ slug title ++ ".json")
        (.jsonF (withLangDefaults language (baseRecord cfg language tf tm p))) with
    | error e => rfl
    | ok fs1 =>
      exact (createReplFinish_warnings_indep _ _ _ _ _ _ _ _ _ _ _ _ _).2.1
  · simp only [create_repl, hdis, pyTruthy, Bool.not_false, Bool.and_self]
    cases hw : fsOpenWrite fs (configDir ++ "/" ++ slug title ++ ".json")
        (.jsonF (withLangDefaults language (baseRecord cfg language tf tm p))) with
    | error e => exact record_no_remote cfg language tf tm p
    | ok fs1 =>
      simp only [if_true]
      rw [(createReplFinish_local _ _ _ _ _ _ _ _ _ _ _).2]
      exact record_no_remote cfg language tf tm p

/-- C4 witness: the downgrade at a concrete python request against the
disabled client. -/
theorem c4_remote_disabled_downgrade_witness :
    (create_repl defaultCfg ".repl-configs" ⟨none⟩ (fun _ => .timeout) [] "W" "python"
      false none none (some true)).warnings = [advisoryMsg] ∧
    (create_repl defaultCfg ".repl-configs" ⟨none⟩ (fun _ => .timeout) [] "W" "python"
      false none none (some true)).attempts = 0 ∧
    FS.lookup (create_repl defaultCfg ".repl-configs" ⟨none⟩ (fun _ => .timeout) [] "W"
        "python" false none none (some true)).fs
      (create_repl defaultCfg ".repl-configs" ⟨none⟩ (fun _ => .timeout) [] "W" "python"
        false none none (some true)).config_file =
      some (.jsonF (create_repl defaultCfg ".repl-configs" ⟨none⟩ (fun _ => .timeout) []
        "W" "python" false none none (some true)).record) := by
  have h := c4_remote_disabled_downgrade defaultCfg ".repl-configs" ⟨none⟩
    (fun _ => .timeout) [] "W" "python" false none none rfl
  exact ⟨h.1, h.2.1,
    (h.2.2.2.2.2 (create_repl defaultCfg ".repl-configs" ⟨none⟩ (fun _ => .timeout) []
      "W" "python" false none none (some true)).record (by decide)).2⟩

/-- C1 (code-bug evidence): the transport failures the claim names —
`UnreachableError` (connection failure) and `TimeoutError` — surface
from `_graphql_request` as plain `ValueError`s, which the retry loop's
`except requests.exceptions.RequestException` (the only retrying
branch) can never catch.  On the claim's own scenario — connection
failures on the first two requests and a successful mutation on the
third — the orchestrator makes exactly one attempt and returns a
local-only record, although the third attempt would have succeeded.
With a permanent 401 (AuthError) it also makes exactly one attempt and
stays local-only, the half of the claim the code does satisfy. -/
theorem c1_transport_retry_dead :
    graphql_request .connectionError = .error (.valueError unreachableMsg) ∧
    graphql_request .timeout = .error (.valueError timeoutMsg) ∧
    (PyError.valueError unreachableMsg).isRequestException = false ∧
    (PyError.valueError timeoutMsg).isRequestException = false ∧
    ((ReplitAPI.mk (some "token")).create_remote_repl
      (.response 200 (some goodBody) "") "T" "python" false none).1 = .ok goodRepl ∧
    (create_repl defaultCfg ".repl-configs" ⟨some "token"⟩
      (fun n => if n < 2 then .connectionError else .response 200 (some goodBody) "") []
      "T" "python" false none none (some true)).attempts = 1 ∧
    (create_repl defaultCfg ".repl-configs" ⟨some "token"⟩
      (fun n => if n < 2 then .connectionError else .response 200 (some goodBody) "") []
      "T" "python" false none none (some true)).ret =
      .ok (create_repl defaultCfg ".repl-configs" ⟨some "token"⟩
        (fun n => if n < 2 then .connectionError else .response 200 (some goodBody) "") []
        "T" "python" false none none (some true)).record ∧
    pyContains (create_repl defaultCfg ".repl-configs" ⟨some "token"⟩
      (fun n => if n < 2 then .connectionError else .response 200 (some goodBody) "") []
      "T" "python" false none none (some true)).record "remote" = .ok false ∧
    (create_repl defaultCfg ".repl-configs" ⟨some "token"⟩
      (fun _ => .response 401 none "") [] "T" "python" false none none
      (some true)).attempts = 1 ∧
    pyContains (create_repl defaultCfg ".repl-configs" ⟨some "token"⟩
      (fun _ => .response 401 none "") [] "T" "python" false none none
      (some true)).record "remote" = .ok false := by
  decide

/-- C2 (code-bug evidence): with a loaded configuration whose
`create_remote` default is `true` and an enabled client whose mutation
would succeed, calling `create_repl` with `create_remote=None` (no
override) makes zero remote attempts and returns a record without a
`remote` member — lines 417-418 coerce `None` to `False` before the
line-470 fallback to the configuration default can ever see a `None`. -/
theorem c2_none_override_ignores_config_default :
    dictGet cfgRemoteTrue "create_remote" (.bool false) = .bool true ∧
    (ReplitAPI.mk (some "token")).is_remote_enabled = true ∧
    (create_repl cfgRemoteTrue ".repl-configs" ⟨some "token"⟩
      (fun _ => .response 200 (some goodBody) "") [] "T" "python" false none none
      none).attempts = 0 ∧
    pyContains (create_repl cfgRemoteTrue ".repl-configs" ⟨some "token"⟩
      (fun _ => .response 200 (some goodBody) "") [] "T" "python" false none none
      none).record "remote" = .ok false ∧
    ((ReplitAPI.mk (some "token")).create_remote_repl
      (.response 200 (some goodBody) "") "T" "python" false none).1 = .ok goodRepl := by
  decide

end ReplCreator
